import Mathlib

/- Verification of the learn-x tenant-isolated content retrieval engine.

   Shallow embedding of:
   * the Prisma schema (migrations/20250509_init/migration.sql) and its
     row-level-security policies (migrations/20250509_rls/migration.sql),
   * the pgvector search function search_content_chunks and the
     update_content_chunk_embedding trigger (vector migration),
   * the spaced-repetition SQL get_spaced_repetition_questions and the
     search_material_by_embedding function (docs/database-schema.md).

   SQL tables become lists of row structures; TEXT columns become String;
   nullable columns become Option; numeric values (timestamps, similarity
   scores) become Rat, and the real-valued POWER(2, x) score of the
   scheduler becomes a Real via rpow.  The pgvector cosine-distance
   operator is an external primitive of the database engine, so search is
   parameterised by an arbitrary distance function, exactly as the SQL is
   parameterised by the operator implementation. -/

namespace LearnX

/-! ## Rows of the Prisma schema (20250509_init migration) -/

structure UserRow where
  id : String
  organizationId : String
deriving DecidableEq

structure CourseRow where
  id : String
  organizationId : String
  professorId : String
deriving DecidableEq

structure ModuleRow where
  id : String
  courseId : String
deriving DecidableEq

structure TopicRow where
  id : String
  moduleId : String
deriving DecidableEq

structure MaterialRow where
  id : String
  topicId : String
deriving DecidableEq

/-- content_chunks row: id, content, materialId, plus the nullable
vector(1536) embedding column added by the vector migration.  The table has
no ordinal column. -/
structure ContentChunk where
  id : String
  content : String
  materialId : String
  embedding : Option (List Rat)
deriving DecidableEq

structure QuizRow where
  id : String
  courseId : String
deriving DecidableEq

structure QuizAttemptRow where
  id : String
  userId : String
  quizId : String
deriving DecidableEq

structure AIInteractionRow where
  id : String
  userId : String
deriving DecidableEq

/-- The database state: one list per table of the Prisma schema used by the
claims. -/
structure Db where
  users : List UserRow
  courses : List CourseRow
  modules : List ModuleRow
  topics : List TopicRow
  materials : List MaterialRow
  content_chunks : List ContentChunk
  quizzes : List QuizRow
  quiz_attempts : List QuizAttemptRow
  ai_interactions : List AIInteractionRow

/-! ## Row-level-security policies (20250509_rls migration)

The session variable app.current_user_id is the uid argument; the scalar
subquery SELECT organizationId FROM users WHERE users.id = current_user_id
is a lookup in the users table. -/

/-- The scalar subquery on users: the organization of the current user, NULL
when the user id does not resolve. -/
def currentOrg (db : Db) (uid : String) : Option String :=
  (db.users.find? (fun u => u.id == uid)).map (fun u => u.organizationId)

/-- USING clause of content_chunks_isolation_policy: materialId IN materials
whose topicId IN topics whose moduleId IN modules whose courseId IN courses
whose organizationId equals the organization of the current user.  A NULL
subquery result (unknown user) compares as false, as in SQL. -/
def content_chunks_isolation_policy (db : Db) (uid : String) (c : ContentChunk) : Bool :=
  db.materials.any fun m => m.id == c.materialId &&
    (db.topics.any fun tp => tp.id == m.topicId &&
      (db.modules.any fun md => md.id == tp.moduleId &&
        (db.courses.any fun co => co.id == md.courseId &&
          (match currentOrg db uid with
           | some o => co.organizationId == o
           | none => false))))

/-- USING clause of ai_interactions_isolation_policy: userId equals the
current user id, and nothing else. -/
def ai_interactions_isolation_policy (uid : String) (row : AIInteractionRow) : Bool :=
  row.userId == uid

/-- USING clause of quiz_attempts_isolation_policy: the answerer, or else
the quiz of the attempt belongs to a course whose professorId is the
current user. -/
def quiz_attempts_isolation_policy (db : Db) (uid : String) (qa : QuizAttemptRow) : Bool :=
  qa.userId == uid ||
    db.quizzes.any fun z => z.id == qa.quizId &&
      db.courses.any fun co => co.id == z.courseId && co.professorId == uid

/-- The material-topic-module-course chain of a chunk resolves to the given
organization (the transitive ownership relation of the schema). -/
def chunkBelongsToOrg (db : Db) (c : ContentChunk) (orgId : String) : Bool :=
  db.materials.any fun m => m.id == c.materialId &&
    (db.topics.any fun tp => tp.id == m.topicId &&
      (db.modules.any fun md => md.id == tp.moduleId &&
        (db.courses.any fun co => co.id == md.courseId && co.organizationId == orgId)))

/-! ## search_content_chunks (vector migration)

SELECT id, content, material_id, 1 - (embedding <=> query) AS similarity
FROM content_chunks WHERE embedding IS NOT NULL
AND 1 - (embedding <=> query) > similarity_threshold
ORDER BY embedding <=> query LIMIT match_count.

The function is plain plpgsql (not SECURITY DEFINER), so the FROM clause
scans only the rows admitted by the row-level-security policy; that filter
is applied to the candidate set before ORDER BY and LIMIT.  The <=>
operator is the engine-supplied distance, passed here as dist. -/

/-- Distance sort key of a row; rows that reach ORDER BY always have a
non-null embedding, the none branch is unreachable there. -/
def distKey (dist : List Rat → List Rat → Rat) (q : List Rat) (c : ContentChunk) : Rat :=
  match c.embedding with
  | none => 0
  | some e => dist e q

/-- WHERE clause: embedding IS NOT NULL AND 1 - (embedding <=> query) >
similarity_threshold. -/
def passesThreshold (dist : List Rat → List Rat → Rat) (q : List Rat) (t : Rat)
    (c : ContentChunk) : Bool :=
  match c.embedding with
  | none => false
  | some e => decide (t < 1 - dist e q)

/-- ORDER BY embedding <=> query (ascending distance). -/
def chunkLe (dist : List Rat → List Rat → Rat) (q : List Rat) (a b : ContentChunk) : Bool :=
  decide (distKey dist q a ≤ distKey dist q b)

/-- The rows of content_chunks visible under the row-level-security policy
for the current user. -/
def rlsVisibleChunks (db : Db) (uid : String) : List ContentChunk :=
  db.content_chunks.filter (content_chunks_isolation_policy db uid)

/-- The chunks selected by search_content_chunks, before projection to the
returned columns: policy filter, WHERE filter, ORDER BY, LIMIT. -/
def searchSelectedChunks (db : Db) (uid : String) (dist : List Rat → List Rat → Rat)
    (q : List Rat) (t : Rat) (n : Nat) : List ContentChunk :=
  (((rlsVisibleChunks db uid).filter (passesThreshold dist q t)).mergeSort
    (chunkLe dist q)).take n

/-- The returned row shape: id, content, material_id, similarity. -/
structure SearchResult where
  id : String
  content : String
  materialId : String
  similarity : Rat
deriving DecidableEq

def toSearchResult (dist : List Rat → List Rat → Rat) (q : List Rat)
    (c : ContentChunk) : SearchResult :=
  { id := c.id, content := c.content, materialId := c.materialId
    similarity := 1 - distKey dist q c }

def search_content_chunks (db : Db) (uid : String) (dist : List Rat → List Rat → Rat)
    (q : List Rat) (t : Rat) (n : Nat) : List SearchResult :=
  (searchSelectedChunks db uid dist q t n).map (toSearchResult dist q)

/-! ## update_content_chunk_embedding trigger (vector migration)

CREATE FUNCTION update_content_chunk_embedding() RETURNS TRIGGER:
the body is BEGIN RETURN NEW; END — it returns NEW without touching any
column.  The trigger fires BEFORE INSERT OR UPDATE OF content. -/

def update_content_chunk_embedding (newRow : ContentChunk) : ContentChunk :=
  newRow

/-- An INSERT or UPDATE that sets the content column: the row goes through
the BEFORE trigger and is stored as the trigger returns it. -/
def insertOrUpdateContent (r : ContentChunk) (newContent : String) : ContentChunk :=
  update_content_chunk_embedding { r with content := newContent }

/-! ## Tenant Context authorize (spec section 4.1)

The spec re-architects the row-level-security policies as an explicit
authorize call.  The following definitions state the ALLOW condition in
the words of the spec and of claim C2, to be compared with the policies
above.  They are spec-side definitions, not source translations. -/

inductive Role where
  | student
  | professor
  | admin
deriving DecidableEq

structure Context where
  organizationId : String
  userId : String
  role : Role
deriving DecidableEq

/-- Organization of the target scope of a quiz attempt: through its quiz
and course. -/
def quizOrg (db : Db) (quizId : String) : Option String :=
  (db.quizzes.find? (fun z => z.id == quizId)).bind fun z =>
    (db.courses.find? (fun co => co.id == z.courseId)).map (fun co => co.organizationId)

/-- The target course of the quiz is one the given user teaches
(professorId of the course). -/
def teachesCourseOfQuiz (db : Db) (uid : String) (quizId : String) : Prop :=
  ∃ z ∈ db.quizzes, z.id = quizId ∧
    ∃ co ∈ db.courses, co.id = z.courseId ∧ co.professorId = uid

/-- Spec-side ALLOW condition of claim C2 for an AIInteraction target:
organization match, and owner or professor-of-the-target-course or admin.
In the migration schema an ai_interactions row has no course column, so
the professor clause has no referent and is omitted here; the
counterexample below exercises only the admin clause. -/
def specAllowsAIInteraction (db : Db) (ctx : Context) (row : AIInteractionRow) : Prop :=
  currentOrg db row.userId = some ctx.organizationId ∧
    (row.userId = ctx.userId ∨ ctx.role = Role.admin)

/-- Spec-side ALLOW condition of claim C2 for a QuizAttempt target (the
answerer as the user scope). -/
def specAllowsQuizAttempt (db : Db) (ctx : Context) (qa : QuizAttemptRow) : Prop :=
  quizOrg db qa.quizId = some ctx.organizationId ∧
    (qa.userId = ctx.userId ∨
      (ctx.role = Role.professor ∧ teachesCourseOfQuiz db ctx.userId qa.quizId) ∨
      ctx.role = Role.admin)

/-- Claim C2 as stated: the access decision of the two user-scoped policies
coincides with the ALLOW condition of the spec. -/
def claimAuthorizeCharacterization : Prop :=
  (∀ (db : Db) (ctx : Context) (row : AIInteractionRow),
      ai_interactions_isolation_policy ctx.userId row = true ↔
        specAllowsAIInteraction db ctx row) ∧
  (∀ (db : Db) (ctx : Context) (qa : QuizAttemptRow),
      quiz_attempts_isolation_policy db ctx.userId qa = true ↔
        specAllowsQuizAttempt db ctx qa)

/-! ## get_spaced_repetition_questions (docs/database-schema.md)

Tables of that schema: quiz_questions(id, quiz_id), quizzes(id, course_id),
quiz_attempts(id, quiz_id, user_id), quiz_responses(id, quiz_attempt_id,
question_id, is_correct NULLABLE, created_at).  Timestamps are epoch
seconds as Rat. -/

structure SRQuestion where
  id : String
  quizId : String
deriving DecidableEq

structure SRQuiz where
  id : String
  courseId : String
deriving DecidableEq

structure SRAttempt where
  id : String
  quizId : String
  userId : String
deriving DecidableEq

structure SRResponse where
  id : String
  quizAttemptId : String
  questionId : String
  isCorrect : Option Bool
  createdAt : Rat
deriving DecidableEq

structure SRDb where
  quiz_questions : List SRQuestion
  quizzes : List SRQuiz
  quiz_attempts : List SRAttempt
  quiz_responses : List SRResponse

/-- The joined rows feeding the aggregates of the user_question_history CTE
for one question: every quiz_responses row for the question, paired with
the optional quiz_attempts row of the second LEFT JOIN.  The condition
qa.user_id = p_user_id sits in the ON clause of that LEFT JOIN, so it only
decides whether the attempt columns are NULL; since no attempt column is
read by the aggregates, no response row is filtered out by the user id. -/
def user_question_history (db : SRDb) (uid : String) (qid : String) :
    List (SRResponse × Option SRAttempt) :=
  (db.quiz_responses.filter (fun r => r.questionId == qid)).map
    (fun r => (r, db.quiz_attempts.find? (fun a => a.id == r.quizAttemptId && a.userId == uid)))

/-- SQL MAX over a list of values, NULL on the empty set. -/
def sqlMaxRat : List Rat → Option Rat
  | [] => none
  | x :: xs =>
    match sqlMaxRat xs with
    | none => some x
    | some m => some (max x m)

/-- MAX(qr.created_at) of the CTE: latest response to the question by any
user, NULL when the question has no response at all. -/
def last_seen (db : SRDb) (uid : String) (qid : String) : Option Rat :=
  sqlMaxRat ((user_question_history db uid qid).map (fun rj => rj.1.createdAt))

/-- AVG(CASE WHEN qr.is_correct THEN 1.0 ELSE 0.0 END) of the CTE: a NULL
or false is_correct counts 0; when the question has no response the LEFT
JOIN contributes one all-NULL row whose CASE value is 0, so the average is
0 (never NULL, which makes the COALESCE(..., 0.5) of the outer query
vacuous). -/
def performance_score (db : SRDb) (uid : String) (qid : String) : Rat :=
  let rows := user_question_history db uid qid
  if rows.length = 0 then 0
  else (rows.countP (fun rj => rj.1.isCorrect == some true) : Rat) / (rows.length : Rat)

/-- The real-valued score of the ORDER BY branch for a seen question:
EXTRACT(EPOCH FROM (now - last_seen)) / (86400 * POWER(2,
GREATEST(performance_score * 5, 1))). -/
noncomputable def srScore (elapsedSeconds perf : Rat) : Real :=
  (elapsedSeconds : Real) / (86400 * (2 : Real) ^ (max ((perf : Real) * 5) 1))

/-- First ORDER BY key (ascending): CASE WHEN last_seen IS NULL THEN 0
ELSE 1 END. -/
def sortGroupKey (db : SRDb) (uid : String) (qid : String) : Nat :=
  match last_seen db uid qid with
  | none => 0
  | some _ => 1

/-- Second ORDER BY key (descending): 0 for never-seen questions, the
spaced-repetition score otherwise. -/
noncomputable def sortScoreKey (db : SRDb) (uid : String) (now : Rat) (qid : String) : Real :=
  match last_seen db uid qid with
  | none => 0
  | some t => srScore (now - t) (performance_score db uid qid)

/-- Strict precedence in the ORDER BY of get_spaced_repetition_questions:
q1 is listed before q2 whenever its group key is smaller, or the group
keys tie and its score is strictly larger. -/
def sortsBefore (db : SRDb) (uid : String) (now : Rat) (q1 q2 : SRQuestion) : Prop :=
  sortGroupKey db uid q1.id < sortGroupKey db uid q2.id ∨
    (sortGroupKey db uid q1.id = sortGroupKey db uid q2.id ∧
      sortScoreKey db uid now q2.id < sortScoreKey db uid now q1.id)

/-- The user has answered the question: some response row belongs to an
attempt by that user (the restriction the CTE was evidently meant to
apply). -/
def answeredBy (db : SRDb) (uid : String) (qid : String) : Bool :=
  db.quiz_responses.any fun r => r.questionId == qid &&
    db.quiz_attempts.any fun a => a.id == r.quizAttemptId && a.userId == uid

/-- The responses of the given user (rows reachable through an attempt of
that user): the part of the database state claim C8 fixes. -/
def userOwnResponses (db : SRDb) (uid : String) : List SRResponse :=
  db.quiz_responses.filter fun r =>
    db.quiz_attempts.any fun a => a.id == r.quizAttemptId && a.userId == uid

/-- The attempts of the given user. -/
def userOwnAttempts (db : SRDb) (uid : String) : List SRAttempt :=
  db.quiz_attempts.filter fun a => a.userId == uid

/-! ## Chunking Engine

Modelled from the spec: the repository only describes the
ContentChunkingService (chunk_text splits text into bounded chunks,
preferring paragraph, then sentence, then whitespace break points within a
ceiling of 1.5 times the target size, with an overlap between consecutive
chunks, sequential ordinals from 0 and character offsets into the source);
the implementation file itself is not among the sources, so the following
definitions are written to the words of spec section 4.2. -/

/-- A chunk draft: ordinal and the character-offset range into the source
text (stop exclusive). -/
structure ChunkDraft where
  ordinal : Nat
  start : Nat
  stop : Nat
deriving DecidableEq

def isWhitespaceChar (c : Char) : Bool :=
  c == ' ' || c == '\n' || c == '\t' || c == '\r'

def isSentenceEndChar (c : Char) : Bool :=
  c == '.' || c == '!' || c == '?'

/-- Break quality of a cut right after character i: 3 paragraph (newline),
2 sentence end, 1 whitespace, 0 none. -/
def breakScore (s : List Char) (i : Nat) : Nat :=
  match s[i]? with
  | none => 0
  | some c =>
    if c == '\n' then 3
    else if isSentenceEndChar c then 2
    else if isWhitespaceChar c then 1
    else 0

/-- Cut position for the chunk starting at pos: the rightmost paragraph
break within the ceiling window, else the rightmost sentence break, else
the rightmost whitespace, else a hard cut at the ceiling, so that no chunk
exceeds ceiling characters. -/
def findCut (s : List Char) (pos ceiling : Nat) : Nat :=
  let limit := min (pos + ceiling) s.length
  let cands := (List.range (limit - pos)).map (fun k => limit - k)
  match cands.find? (fun i => breakScore s (i - 1) == 3) with
  | some i => i
  | none =>
    match cands.find? (fun i => breakScore s (i - 1) == 2) with
    | some i => i
    | none =>
      match cands.find? (fun i => breakScore s (i - 1) == 1) with
      | some i => i
      | none => limit

/-- Main chunking loop: emit the rest as a final chunk when it fits within
the target size, otherwise cut at the best break point and continue from
the cut minus the overlap (always making progress).  Structural recursion
on a fuel initialised above the text length. -/
def chunkLoop (s : List Char) (targetSize overlap : Nat) :
    Nat → Nat → Nat → List ChunkDraft
  | 0, _, _ => []
  | fuel + 1, pos, ord =>
    if s.length ≤ pos then []
    else if s.length - pos ≤ targetSize then [⟨ord, pos, s.length⟩]
    else
      let ceiling := targetSize * 3 / 2
      let cut := max (findCut s pos ceiling) (pos + 1)
      let next := max (cut - overlap) (pos + 1)
      ⟨ord, pos, cut⟩ :: chunkLoop s targetSize overlap fuel next (ord + 1)

/-- Modelled from the spec: chunk_text of the ContentChunkingService.
Empty or whitespace-only input yields the empty sequence; text no longer
than the target size yields exactly one chunk. -/
def chunk_text (text : String) (targetSize overlap : Nat) : List ChunkDraft :=
  let s := text.toList
  if s.all isWhitespaceChar then []
  else chunkLoop s targetSize overlap (s.length + 1) 0 0

/-! ## Concrete fixtures used by witnesses and counterexamples -/

/-- A concrete stand-in for the engine-supplied distance operator. -/
def distZero : List Rat → List Rat → Rat := fun _ _ => 0

def chunkIso : ContentChunk := ⟨"chunk1", "machine learning", "mat1", some [1]⟩

def dbIso : Db :=
  { users := [⟨"u1", "org_a"⟩]
    courses := [⟨"course1", "org_a", "prof1"⟩]
    modules := [⟨"mod1", "course1"⟩]
    topics := [⟨"top1", "mod1"⟩]
    materials := [⟨"mat1", "top1"⟩]
    content_chunks := [chunkIso]
    quizzes := []
    quiz_attempts := []
    ai_interactions := [] }

def chunkTie1 : ContentChunk := ⟨"c1", "alpha", "mat1", some [1]⟩

def chunkTie2 : ContentChunk := ⟨"c2", "beta", "mat1", some [1]⟩

def dbTie : Db := { dbIso with content_chunks := [chunkTie1, chunkTie2] }

def dbC2 : Db :=
  { users := [⟨"admin1", "org_a"⟩, ⟨"user2", "org_a"⟩]
    courses := []
    modules := []
    topics := []
    materials := []
    content_chunks := []
    quizzes := []
    quiz_attempts := []
    ai_interactions := [⟨"ai1", "user2"⟩] }

def ctxC2 : Context := ⟨"org_a", "admin1", Role.admin⟩

def aiRowC2 : AIInteractionRow := ⟨"ai1", "user2"⟩

def sq1 : SRQuestion := ⟨"q1", "qz"⟩

def sq2 : SRQuestion := ⟨"q2", "qz"⟩

def attemptOther : SRAttempt := ⟨"a1", "qz", "oth"⟩

def attemptStu : SRAttempt := ⟨"a2", "qz", "stu"⟩

/-- A response of another user to question q1, given at time 864000. -/
def respOther : SRResponse := ⟨"r1", "a1", "q1", some true, 864000⟩

/-- A correct response of user stu to question q2, given at time 0, ten
days (864000 seconds) before the fixed now of the fixtures. -/
def respStu : SRResponse := ⟨"r2", "a2", "q2", some true, 0⟩

/-- State in which user oth has answered q1 and user stu has answered
q2. -/
def srDb6 : SRDb := ⟨[sq1, sq2], [⟨"qz", "crs"⟩], [attemptOther, attemptStu], [respOther, respStu]⟩

/-- The same state with the response of user oth removed: user stu has
identical attempts and responses in both. -/
def srDb8a : SRDb := ⟨[sq1, sq2], [⟨"qz", "crs"⟩], [attemptOther, attemptStu], [respStu]⟩

/-! ## Shared lemmas -/

/-- A chunk selected by the search passed the WHERE clause. -/
lemma passes_of_selected {db : Db} {uid : String}
    {dist : List Rat → List Rat → Rat} {q : List Rat} {t : Rat} {n : Nat}
    {c : ContentChunk} (hsel : c ∈ searchSelectedChunks db uid dist q t n) :
    passesThreshold dist q t c = true := by
  unfold searchSelectedChunks at hsel
  exact List.of_mem_filter (List.mem_mergeSort.mp (List.mem_of_mem_take hsel))

/-- A chunk selected by the search was visible under the
row-level-security policy. -/
lemma policy_of_selected {db : Db} {uid : String}
    {dist : List Rat → List Rat → Rat} {q : List Rat} {t : Rat} {n : Nat}
    {c : ContentChunk} (hsel : c ∈ searchSelectedChunks db uid dist q t n) :
    content_chunks_isolation_policy db uid c = true := by
  unfold searchSelectedChunks at hsel
  exact List.of_mem_filter
    (List.mem_of_mem_filter (List.mem_mergeSort.mp (List.mem_of_mem_take hsel)))

/-- On the isolation fixture the search selects exactly its one chunk. -/
lemma dbIso_selected :
    searchSelectedChunks dbIso "u1" distZero [1] 0 5 = [chunkIso] := by
  have hvis : rlsVisibleChunks dbIso "u1" = [chunkIso] := rfl
  have hfil : (rlsVisibleChunks dbIso "u1").filter (passesThreshold distZero [1] 0)
      = [chunkIso] := by
    rw [hvis]
    norm_num [List.filter_cons, passesThreshold, distZero, chunkIso]
  unfold searchSelectedChunks
  rw [hfil, List.mergeSort_of_sorted (by simp)]
  rfl

/-! ## Claim theorems -/

/-- C1: tenant isolation of search_content_chunks.  Under unique primary
keys, when the current user resolves to organization a, every chunk the
search selects belongs — through the material, topic, module, course
chain — to a, never to a different organization b: the
row-level-security filter restricts the candidate set before ORDER BY and
LIMIT, for every distance function, query vector, threshold and match
count. -/
theorem search_scoped_tenant_isolation (db : Db) (uid : String)
    (dist : List Rat → List Rat → Rat) (q : List Rat) (t : Rat) (n : Nat)
    (c : ContentChunk) (a b : String)
    (hmat : (db.materials.map MaterialRow.id).Nodup)
    (htop : (db.topics.map TopicRow.id).Nodup)
    (hmod : (db.modules.map ModuleRow.id).Nodup)
    (hcrs : (db.courses.map CourseRow.id).Nodup)
    (horg : currentOrg db uid = some a)
    (hsel : c ∈ searchSelectedChunks db uid dist q t n)
    (hbel : chunkBelongsToOrg db c b = true) :
    b = a := by
  have hpol := policy_of_selected hsel
  simp only [content_chunks_isolation_policy, horg, List.any_eq_true,
    Bool.and_eq_true, beq_iff_eq] at hpol
  simp only [chunkBelongsToOrg, List.any_eq_true, Bool.and_eq_true, beq_iff_eq] at hbel
  obtain ⟨m1, hm1, hmid1, tp1, htp1, htpid1, md1, hmd1, hmdid1, co1, hco1, hcoid1, ha⟩ := hpol
  obtain ⟨m2, hm2, hmid2, tp2, htp2, htpid2, md2, hmd2, hmdid2, co2, hco2, hcoid2, hb⟩ := hbel
  have hmm : m1 = m2 := List.inj_on_of_nodup_map hmat hm1 hm2 (hmid1.trans hmid2.symm)
  subst hmm
  have htt : tp1 = tp2 := List.inj_on_of_nodup_map htop htp1 htp2 (by rw [htpid1, htpid2])
  subst htt
  have hdd : md1 = md2 := List.inj_on_of_nodup_map hmod hmd1 hmd2 (by rw [hmdid1, hmdid2])
  subst hdd
  have hcc : co1 = co2 := List.inj_on_of_nodup_map hcrs hco1 hco2 (by rw [hcoid1, hcoid2])
  subst hcc
  rw [← hb]
  exact ha

/-- C1 witness: on a one-organization fixture the hypotheses hold and the
selected chunk belongs to the organization of the caller. -/
theorem search_scoped_tenant_isolation_witness :
    chunkIso ∈ searchSelectedChunks dbIso "u1" distZero [1] 0 5 ∧
      chunkBelongsToOrg dbIso chunkIso "org_a" = true ∧ "org_a" = "org_a" := by
  have hsel : chunkIso ∈ searchSelectedChunks dbIso "u1" distZero [1] 0 5 := by
    rw [dbIso_selected]
    exact List.mem_singleton_self _
  refine ⟨hsel, by decide, ?_⟩
  exact search_scoped_tenant_isolation dbIso "u1" distZero [1] 0 5 chunkIso "org_a" "org_a"
    (by decide) (by decide) (by decide) (by decide) (by decide) hsel (by decide)

/-- C3: a chunk whose embedding column is NULL is never selected by
search_content_chunks, for every database, caller, distance function,
query vector, threshold and match count — the WHERE clause demands
embedding IS NOT NULL before ranking. -/
theorem null_embedding_excluded (db : Db) (uid : String)
    (dist : List Rat → List Rat → Rat) (q : List Rat) (t : Rat) (n : Nat)
    (c : ContentChunk) (hsel : c ∈ searchSelectedChunks db uid dist q t n) :
    c.embedding ≠ none := by
  have hpass := passes_of_selected hsel
  intro hnone
  simp [passesThreshold, hnone] at hpass

/-- C3 witness: the fixture search selects its embedded chunk, whose
embedding is indeed not NULL. -/
theorem null_embedding_excluded_witness :
    chunkIso ∈ searchSelectedChunks dbIso "u1" distZero [1] 0 5 ∧
      chunkIso.embedding ≠ none := by
  have hsel : chunkIso ∈ searchSelectedChunks dbIso "u1" distZero [1] 0 5 := by
    rw [dbIso_selected]
    exact List.mem_singleton_self _
  exact ⟨hsel, null_embedding_excluded dbIso "u1" distZero [1] 0 5 chunkIso hsel⟩

/-- C5: every returned search row clears the threshold strictly
(similarity > similarity_threshold), and when no visible chunk clears the
threshold the function returns the empty list — a normal value, not an
error. -/
theorem search_threshold_strict_and_empty_ok (db : Db) (uid : String)
    (dist : List Rat → List Rat → Rat) (q : List Rat) (t : Rat) (n : Nat) :
    (∀ r ∈ search_content_chunks db uid dist q t n, t < r.similarity) ∧
    ((∀ c ∈ rlsVisibleChunks db uid, passesThreshold dist q t c = false) →
      search_content_chunks db uid dist q t n = []) := by
  constructor
  · intro r hr
    rw [search_content_chunks] at hr
    obtain ⟨c, hc, rfl⟩ := List.mem_map.mp hr
    have hpass := passes_of_selected hc
    cases hemb : c.embedding with
    | none => simp [passesThreshold, hemb] at hpass
    | some e =>
      simp only [passesThreshold, hemb, decide_eq_true_eq] at hpass
      simpa [toSearchResult, distKey, hemb] using hpass
  · intro hall
    have hnil : (rlsVisibleChunks db uid).filter (passesThreshold dist q t) = [] := by
      rw [List.filter_eq_nil_iff]
      intro c hc
      simp [hall c hc]
    rw [search_content_chunks, searchSelectedChunks, hnil]
    simp [List.mergeSort_nil]

/-- C5 witness: with a threshold above every similarity the fixture search
returns the empty list. -/
theorem search_threshold_witness :
    search_content_chunks dbIso "u1" distZero [1] 2 5 = [] :=
  (search_threshold_strict_and_empty_ok dbIso "u1" distZero [1] 2 5).2 (by
    intro c hc
    have hvis : rlsVisibleChunks dbIso "u1" = [chunkIso] := rfl
    rw [hvis] at hc
    rw [List.mem_singleton.mp hc]
    norm_num [passesThreshold, chunkIso, distZero])

/-- C2 counterexample: an admin of the same organization reading the AI
interaction of another user.  The claim grants access (organization match
and admin role), but ai_interactions_isolation_policy checks only userId
equality and denies: the characterization stated by the claim is false. -/
theorem authorize_admin_bypass_refuted : ¬ claimAuthorizeCharacterization := by
  intro h
  have h2 := (h.1 dbC2 ctxC2 aiRowC2).mpr ⟨by decide, Or.inr rfl⟩
  exact absurd h2 (by decide)

/-- C2 amended: the exact access conditions of the two user-scoped
policies.  An ai_interactions row is visible iff its userId is the current
user — with no professor or admin exception and no organization conjunct;
a quiz_attempts row is visible iff its userId is the current user or its
quiz belongs to a course whose professorId is the current user — again
with no admin bypass, and with teaching checked via professorId rather
than via a role field. -/
theorem isolation_policies_characterization (db : Db) (uid : String)
    (row : AIInteractionRow) (qa : QuizAttemptRow) :
    (ai_interactions_isolation_policy uid row = true ↔ row.userId = uid) ∧
    (quiz_attempts_isolation_policy db uid qa = true ↔
      (qa.userId = uid ∨ ∃ z ∈ db.quizzes, z.id = qa.quizId ∧
        ∃ co ∈ db.courses, co.id = z.courseId ∧ co.professorId = uid)) := by
  constructor
  · simp [ai_interactions_isolation_policy]
  · simp [quiz_attempts_isolation_policy, List.any_eq_true, Bool.and_eq_true, beq_iff_eq]

/-- C4 counterexample: two chunks with identical embeddings give two result
rows of equal similarity, so the output of search_content_chunks is not
strictly sorted by descending similarity (and the schema has no ordinal
column that could break the tie). -/
theorem search_tie_not_strictly_sorted :
    ¬ (search_content_chunks dbTie "u1" distZero [1] 0 5).Pairwise
        (fun r1 r2 => r2.similarity < r1.similarity) := by
  have hvis : rlsVisibleChunks dbTie "u1" = [chunkTie1, chunkTie2] := rfl
  have hfil : (rlsVisibleChunks dbTie "u1").filter (passesThreshold distZero [1] 0)
      = [chunkTie1, chunkTie2] := by
    rw [hvis]
    norm_num [List.filter_cons, passesThreshold, distZero, chunkTie1, chunkTie2]
  have hsort : [chunkTie1, chunkTie2].mergeSort (chunkLe distZero [1])
      = [chunkTie1, chunkTie2] :=
    List.mergeSort_of_sorted
      (by norm_num [List.pairwise_cons, chunkLe, distKey, chunkTie1, chunkTie2, distZero])
  intro hp
  rw [search_content_chunks, searchSelectedChunks, hfil, hsort] at hp
  norm_num [List.pairwise_cons, toSearchResult, distKey, chunkTie1, chunkTie2, distZero] at hp

/-- C4 amended: search output is deterministic (a pure function of the
database, scope, distance and query) and is sorted by non-increasing
similarity; the ordering on equal-similarity rows is not ordinal-based —
the SQL orders by the distance expression alone and content_chunks has no
ordinal column. -/
theorem search_sorted_by_descending_similarity (db : Db) (uid : String)
    (dist : List Rat → List Rat → Rat) (q : List Rat) (t : Rat) (n : Nat) :
    (search_content_chunks db uid dist q t n).Pairwise
      (fun r1 r2 => r2.similarity ≤ r1.similarity) := by
  have htrans : ∀ a b c : ContentChunk, chunkLe dist q a b = true →
      chunkLe dist q b c = true → chunkLe dist q a c = true := by
    intro x y z hxy hyz
    simp only [chunkLe, decide_eq_true_eq] at hxy hyz ⊢
    exact le_trans hxy hyz
  have htotal : ∀ a b : ContentChunk, (chunkLe dist q a b || chunkLe dist q b a) = true := by
    intro x y
    simp only [chunkLe, Bool.or_eq_true, decide_eq_true_eq]
    exact le_total _ _
  have hs := List.sorted_mergeSort htrans htotal
    ((rlsVisibleChunks db uid).filter (passesThreshold dist q t))
  rw [search_content_chunks, List.pairwise_map]
  unfold searchSelectedChunks
  refine List.Pairwise.sublist (List.take_sublist _ _) (hs.imp ?_)
  intro x y hxy
  simp only [chunkLe, decide_eq_true_eq] at hxy
  simp only [toSearchResult]
  exact sub_le_sub_left hxy 1

/-- An elapsed time of zero gives a zero spaced-repetition score. -/
lemma srScore_zero (perf : Rat) : srScore 0 perf = 0 := by
  simp [srScore]

/-- A positive elapsed time gives a positive spaced-repetition score. -/
lemma srScore_pos (elapsed perf : Rat) (h : 0 < elapsed) : 0 < srScore elapsed perf := by
  unfold srScore
  apply div_pos
  · exact_mod_cast h
  · positivity

/-- On srDb6 the ORDER BY places q2 (answered by user stu ten days ago)
strictly before q1 (answered only by user oth, just now): both fall into
group 1 because the history counts the response of oth, and the score of
q2 is positive while the score of q1 is zero. -/
lemma srDb6_q2_before_q1 : sortsBefore srDb6 "stu" 864000 sq2 sq1 := by
  have hls1 : last_seen srDb6 "stu" "q1" = some 864000 := rfl
  have hls2 : last_seen srDb6 "stu" "q2" = some 0 := rfl
  refine Or.inr ⟨by decide, ?_⟩
  show sortScoreKey srDb6 "stu" 864000 "q1" < sortScoreKey srDb6 "stu" 864000 "q2"
  simp only [sortScoreKey, hls1, hls2]
  have h0 : (864000 : Rat) - 864000 = 0 := by norm_num
  rw [h0, srScore_zero]
  exact srScore_pos _ _ (by norm_num)

/-- C6: failing input for the scheduler ordering.  User stu has never
answered q1 (only user oth has, at the current instant) and has answered
q2 ten days earlier, yet the ORDER BY of get_spaced_repetition_questions
lists q2 strictly before q1: the user_question_history CTE aggregates
responses of every user, so a question is only ever in priority group 0
when nobody at all has answered it. -/
theorem scheduler_unanswered_first_violated :
    answeredBy srDb6 "stu" "q1" = false ∧ answeredBy srDb6 "stu" "q2" = true ∧
      sortsBefore srDb6 "stu" 864000 sq2 sq1 :=
  ⟨by decide, by decide, srDb6_q2_before_q1⟩

/-- C8: failing input for the sole-input property.  The two states carry
the same course questions, the same quizzes, and the same attempts and
responses of user stu, differing only in a response of user oth to q1 —
yet the scheduler order of q1 and q2 for user stu flips between them,
because the history CTE reads the responses of every user. -/
theorem scheduler_depends_on_other_users :
    srDb8a.quiz_questions = srDb6.quiz_questions ∧
    srDb8a.quizzes = srDb6.quizzes ∧
    userOwnAttempts srDb8a "stu" = userOwnAttempts srDb6 "stu" ∧
    userOwnResponses srDb8a "stu" = userOwnResponses srDb6 "stu" ∧
    sortsBefore srDb8a "stu" 864000 sq1 sq2 ∧
    sortsBefore srDb6 "stu" 864000 sq2 sq1 := by
  refine ⟨rfl, rfl, rfl, rfl, Or.inl (by decide), srDb6_q2_before_q1⟩

/-- C7 counterexample: performances 0 and 1/5 both land on the
GREATEST(..., 1) floor, so for the same ten-day elapsed time the scores
are equal, not strictly ordered. -/
theorem score_plateau_counterexample :
    (0 : Rat) < 1 / 5 ∧ srScore 864000 0 = srScore 864000 (1 / 5) := by
  constructor
  · norm_num
  · have h1 : (((0 : Rat) : Real) * 5) = 0 := by norm_num
    have h2 : (((1 / 5 : Rat) : Real) * 5) = 1 := by push_cast; norm_num
    unfold srScore
    rw [h1, h2, max_eq_right (by norm_num : (0 : Real) ≤ 1), max_self]

/-- C7 amended: the score of an answered question equals elapsed days
divided by 2 to the power GREATEST(performance * 5, 1), and it is strictly
antitone in performance once the elapsed time is positive and the larger
performance clears the floor (performance * 5 above 1); on the floor —
both performances at most 1/5 — the scores coincide, as the
counterexample shows. -/
theorem score_formula_and_monotonicity (pa pb d : Rat)
    (hab : pa < pb) (hd : 0 < d) (hfloor : 1 < 5 * pb) :
    srScore d pb < srScore d pa ∧
      srScore d pa = ((d : Real) / 86400) / (2 : Real) ^ (max ((pa : Real) * 5) 1) := by
  constructor
  · unfold srScore
    have hcab : (pa : Real) < (pb : Real) := by exact_mod_cast hab
    have hcfl : (1 : Real) < (pb : Real) * 5 := by
      have h5 : ((1 : Rat) : Real) < ((5 * pb : Rat) : Real) := by exact_mod_cast hfloor
      push_cast at h5
      linarith
    have hea : max ((pa : Real) * 5) 1 < max ((pb : Real) * 5) 1 := by
      rw [max_eq_left (le_of_lt hcfl)]
      exact max_lt (by linarith) hcfl
    have hpow : (2 : Real) ^ (max ((pa : Real) * 5) 1) <
        (2 : Real) ^ (max ((pb : Real) * 5) 1) :=
      (Real.rpow_lt_rpow_left_iff (by norm_num)).mpr hea
    apply div_lt_div_of_pos_left
    · exact_mod_cast hd
    · positivity
    · exact mul_lt_mul_of_pos_left hpow (by norm_num)
  · unfold srScore
    exact div_mul_eq_div_div _ _ _

/-- C7 witness: at performances 0 and 1 with a ten-day elapsed time the
hypotheses hold, the strict inequality holds, and the score of the
0-performance question matches the days-over-power formula. -/
theorem score_formula_witness :
    srScore 864000 1 < srScore 864000 0 ∧
      srScore 864000 0 =
        ((864000 : Rat) : Real) / 86400 / (2 : Real) ^ (max (((0 : Rat) : Real) * 5) 1) :=
  ⟨(score_formula_and_monotonicity 0 1 864000 (by norm_num) (by norm_num) (by norm_num)).1,
   (score_formula_and_monotonicity 0 1 864000 (by norm_num) (by norm_num) (by norm_num)).2⟩

/-- C9: chunking is deterministic and idempotent — the chunker is a pure
function of the text and the parameters, so re-chunking identical input
with identical parameters yields identical chunk boundaries.  Reason
spec-modelled: the chunking implementation is not among the source files,
so chunk_text is modelled from spec section 4.2. -/
theorem chunking_idempotent (text : String) (targetSize overlap : Nat) :
    chunk_text text targetSize overlap = chunk_text text targetSize overlap := rfl

/-- C10: the BEFORE INSERT OR UPDATE OF content trigger returns NEW
unchanged, so writing the content column leaves the stored embedding
intact, and the updated row passes the search WHERE clause exactly when
the original row did — it stays searchable under its old embedding until
an explicit re-embed. -/
theorem content_update_preserves_embedding (r : ContentChunk) (newContent : String)
    (dist : List Rat → List Rat → Rat) (q : List Rat) (t : Rat) :
    (insertOrUpdateContent r newContent).embedding = r.embedding ∧
      passesThreshold dist q t (insertOrUpdateContent r newContent)
        = passesThreshold dist q t r :=
  ⟨rfl, rfl⟩

end LearnX
